import Mathlib

/-!
Verification of the resilience core of the AI-avatar gateway server
(`src/unnamed/part_002`): circuit breaker, upstream call executor with
retry, HTTPS agent configuration, JWT token signer, and the latency
measurement endpoint.  JavaScript numbers that hold epoch-millisecond
timestamps or counters are modelled as `Int`/`Nat`; JavaScript values
that may be `undefined`/`NaN` are modelled by an explicit value type.
-/

namespace Gateway

/-! ## Circuit breaker (part_002 lines 563-596) -/

/-- The three breaker modes of the `duixApiCircuitBreaker` object. -/
inductive CBState where
  | CLOSED
  | OPEN
  | HALF_OPEN
  deriving DecidableEq, Repr

/-- The mutable `duixApiCircuitBreaker` singleton, as an explicit state value. -/
structure CircuitBreaker where
  failures : Nat
  lastFailureTime : Int
  state : CBState
  failureThreshold : Nat
  recoveryTimeoutMs : Int
  deriving DecidableEq, Repr

/-- Initial value of `duixApiCircuitBreaker` (lines 564-570). -/
def initialBreaker : CircuitBreaker :=
  { failures := 0
    lastFailureTime := 0
    state := CBState.CLOSED
    failureThreshold := 5
    recoveryTimeoutMs := 60000 }

/-- `updateCircuitBreaker(success)` (lines 572-583); `now` is the value of
`Date.now()` at the call. -/
def updateCircuitBreaker (cb : CircuitBreaker) (success : Bool) (now : Int) :
    CircuitBreaker :=
  if success then
    { cb with failures := 0, state := CBState.CLOSED }
  else
    let failures := cb.failures + 1
    { cb with
      failures := failures
      lastFailureTime := now
      state := if failures ≥ cb.failureThreshold then CBState.OPEN else cb.state }

/-- `shouldAttemptDuixCall()` (lines 585-596); returns the boolean result and
the (possibly mutated) breaker state. -/
def shouldAttemptDuixCall (cb : CircuitBreaker) (now : Int) :
    Bool × CircuitBreaker :=
  match cb.state with
  | CBState.CLOSED => (true, cb)
  | CBState.OPEN =>
      if now - cb.lastFailureTime > cb.recoveryTimeoutMs then
        (true, { cb with state := CBState.HALF_OPEN })
      else
        (false, cb)
  | CBState.HALF_OPEN => (true, cb)

/-- `n` consecutive failures recorded at times `t 0, …, t (n-1)`. -/
def recordFailures (cb : CircuitBreaker) (t : Nat → Int) : Nat → CircuitBreaker
  | 0 => cb
  | n + 1 => updateCircuitBreaker (recordFailures cb t n) false (t n)

theorem recordFailures_failures (cb : CircuitBreaker) (t : Nat → Int) (n : Nat) :
    (recordFailures cb t n).failures = cb.failures + n := by
  induction n with
  | zero => rfl
  | succ n ih =>
      simp [recordFailures, updateCircuitBreaker, ih]
      omega

theorem recordFailures_threshold (cb : CircuitBreaker) (t : Nat → Int) (n : Nat) :
    (recordFailures cb t n).failureThreshold = cb.failureThreshold := by
  induction n with
  | zero => rfl
  | succ n ih => simp [recordFailures, updateCircuitBreaker, ih]

theorem recordFailures_lastFailureTime (cb : CircuitBreaker) (t : Nat → Int)
    (n : Nat) (h : 0 < n) :
    (recordFailures cb t n).lastFailureTime = t (n - 1) := by
  cases n with
  | zero => exact absurd h (by simp)
  | succ n => simp [recordFailures, updateCircuitBreaker]

theorem recordFailures_recovery (cb : CircuitBreaker) (t : Nat → Int) (n : Nat) :
    (recordFailures cb t n).recoveryTimeoutMs = cb.recoveryTimeoutMs := by
  induction n with
  | zero => rfl
  | succ n ih => simp [recordFailures, updateCircuitBreaker, ih]

/-- After five failures from the initial breaker the state is OPEN. -/
theorem recordFailures_five_open (t : Nat → Int) :
    (recordFailures initialBreaker t 5).state = CBState.OPEN := by
  have h5 : (recordFailures initialBreaker t 4).failures = 4 :=
    recordFailures_failures initialBreaker t 4
  have hth : (recordFailures initialBreaker t 4).failureThreshold = 5 :=
    recordFailures_threshold initialBreaker t 4
  show (updateCircuitBreaker (recordFailures initialBreaker t 4) false (t 4)).state
      = CBState.OPEN
  simp [updateCircuitBreaker, h5, hth]

/-- **C1.** Circuit breaker state machine: from the initial CLOSED state,
after 5 consecutive recorded failures `shouldAttempt` returns false (with
the state left OPEN, so it keeps returning false) as long as no more than
60000 ms have elapsed since the last failure; once strictly more than
60000 ms have elapsed, `shouldAttempt` transitions the breaker to HALF_OPEN
and returns true, and a subsequent successful `recordResult(true)` resets
the failure count to 0 and the state to CLOSED. -/
theorem circuit_breaker_state_machine (t : Nat → Int) (now1 now2 tSucc : Int)
    (h1 : now1 - t 4 ≤ 60000) (h2 : now2 - t 4 > 60000) :
    (recordFailures initialBreaker t 5).state = CBState.OPEN ∧
    (recordFailures initialBreaker t 5).failures = 5 ∧
    shouldAttemptDuixCall (recordFailures initialBreaker t 5) now1
      = (false, recordFailures initialBreaker t 5) ∧
    (shouldAttemptDuixCall (recordFailures initialBreaker t 5) now2).1
      = true ∧
    (shouldAttemptDuixCall (recordFailures initialBreaker t 5) now2).2.state
      = CBState.HALF_OPEN ∧
    (updateCircuitBreaker
        (shouldAttemptDuixCall (recordFailures initialBreaker t 5) now2).2
        true tSucc).failures = 0 ∧
    (updateCircuitBreaker
        (shouldAttemptDuixCall (recordFailures initialBreaker t 5) now2).2
        true tSucc).state = CBState.CLOSED := by
  set cb5 := recordFailures initialBreaker t 5 with hcb5
  have hopen : cb5.state = CBState.OPEN := recordFailures_five_open t
  have hfail : cb5.failures = 5 := recordFailures_failures initialBreaker t 5
  have hlast : cb5.lastFailureTime = t 4 :=
    recordFailures_lastFailureTime initialBreaker t 5 (by norm_num)
  have hrec : cb5.recoveryTimeoutMs = 60000 :=
    recordFailures_recovery initialBreaker t 5
  have hattempt1 : shouldAttemptDuixCall cb5 now1 = (false, cb5) := by
    unfold shouldAttemptDuixCall
    rw [hopen]
    simp only [hlast, hrec]
    rw [if_neg (by omega)]
  have hattempt2 : shouldAttemptDuixCall cb5 now2
      = (true, { cb5 with state := CBState.HALF_OPEN }) := by
    unfold shouldAttemptDuixCall
    rw [hopen]
    simp only [hlast, hrec]
    rw [if_pos (by omega)]
  refine ⟨hopen, hfail, hattempt1, ?_, ?_, ?_, ?_⟩ <;>
    simp [hattempt2, updateCircuitBreaker]

/-- Witness for C1 at concrete times: failures at 0,1,2,3,4 ms, a blocked
probe at 60004 ms, an allowed probe at 60005 ms, success at 60006 ms. -/
theorem circuit_breaker_state_machine_witness :
    (60004 - (fun i : Nat => (i : Int)) 4 ≤ 60000 ∧
     60005 - (fun i : Nat => (i : Int)) 4 > 60000) ∧
    ((recordFailures initialBreaker (fun i : Nat => (i : Int)) 5).state
       = CBState.OPEN ∧
     (recordFailures initialBreaker (fun i : Nat => (i : Int)) 5).failures
       = 5 ∧
     shouldAttemptDuixCall
        (recordFailures initialBreaker (fun i : Nat => (i : Int)) 5) 60004
       = (false, recordFailures initialBreaker (fun i : Nat => (i : Int)) 5) ∧
     (shouldAttemptDuixCall
        (recordFailures initialBreaker (fun i : Nat => (i : Int)) 5)
        60005).1 = true ∧
     (shouldAttemptDuixCall
        (recordFailures initialBreaker (fun i : Nat => (i : Int)) 5)
        60005).2.state = CBState.HALF_OPEN ∧
     (updateCircuitBreaker
        (shouldAttemptDuixCall
          (recordFailures initialBreaker (fun i : Nat => (i : Int)) 5)
          60005).2 true 60006).failures = 0 ∧
     (updateCircuitBreaker
        (shouldAttemptDuixCall
          (recordFailures initialBreaker (fun i : Nat => (i : Int)) 5)
          60005).2 true 60006).state = CBState.CLOSED) :=
  ⟨⟨by decide, by decide⟩,
   circuit_breaker_state_machine (fun i : Nat => (i : Int)) 60004 60005 60006
     (by decide) (by decide)⟩

/-! ## Upstream call executor (part_002 lines 598-726)

`callDUIXServiceWithToken` is async and impure; it is modelled by threading
the breaker state explicitly, passing the upstream behaviour as a function
`outcome : Nat → UpstreamOutcome` (the raw result of attempt `k`), and the
clock as the entry timestamp `now` plus a function `attemptEnd : Nat → Int`
(the `Date.now()` reading when attempt `k` concludes).  Besides the response
and the new breaker state, the model returns the trace of attempts actually
issued, as `(attempt number, timeout ms)` pairs taken from the axios request
configuration (line 632). -/

/-- Raw outcome of one upstream HTTP exchange, before axios's
`validateStatus` filter is applied. -/
inductive UpstreamOutcome where
  | httpResponse (status : Nat) (payload : String)
  | networkError (code : String)
  deriving DecidableEq, Repr

/-- `validateStatus: (status) => status < 500` (line 633, also the axios
default at line 276). -/
def validateStatus (status : Nat) : Bool := status < 500

/-- What `await axios({...})` yields: statuses accepted by `validateStatus`
resolve, everything else (rejected status or network error) throws. -/
inductive AttemptResult where
  | resolved (status : Nat) (payload : String)
  | thrown (errCode : String)
  deriving DecidableEq, Repr

def axiosOutcome : UpstreamOutcome → AttemptResult
  | UpstreamOutcome.httpResponse s d =>
      if validateStatus s then AttemptResult.resolved s d
      else AttemptResult.thrown ("Request failed with status code " ++ toString s)
  | UpstreamOutcome.networkError c => AttemptResult.thrown c

/-- An attempt that fails at the network level or with status ≥ 500. -/
def attemptFails : UpstreamOutcome → Prop
  | UpstreamOutcome.httpResponse s _ => 500 ≤ s
  | UpstreamOutcome.networkError _ => True

/-- The `errorInfo` object attached to the retry-exhaustion fallback
(lines 688-693). -/
structure ErrorInfo where
  error : String
  attempts : Nat
  last_error : String
  circuit_breaker_state : CBState
  deriving DecidableEq, Repr

/-- The `data` object of a DUIX service response.  Keys present only in the
success shape (lines 650-659) or only in the fallback shape (lines 713-724)
are `Option`s; a JS key that is absent (or `null` for `error_info`) maps to
`none`.  The ISO `timestamp` string is modelled by the epoch-ms instant it
renders. -/
structure DuixData where
  text : String
  api_call_successful : Bool
  api_status : Nat
  concurrent_info : Option String
  real_api_response : Option Bool
  fallback_mode : Option Bool
  aws_hybrid_response : Option Bool
  response_time_ms : Int
  circuit_breaker_state : CBState
  error_info : Option ErrorInfo
  timestamp : Option Int
  aws_region : String
  deriving DecidableEq, Repr

/-- Common shape of genuine successes and fallbacks: a `session_id` plus a
`data` object. -/
structure DuixResponse where
  session_id : String
  data : DuixData
  deriving DecidableEq, Repr

/-- `createFallbackResponse(question, startTime, errorInfo)`
(lines 710-726); `curTime` is the `Date.now()` reading inside the builder
and `cb` the breaker state it snapshots. -/
def createFallbackResponse (cb : CircuitBreaker) (awsRegion question : String)
    (startTime curTime : Int) (errorInfo : Option ErrorInfo) : DuixResponse :=
  { session_id := "fallback_session_" ++ toString curTime
    data :=
    { text := "[Hybrid Mode] Processing: \"" ++ question ++
        "\" - DUIX service temporarily unavailable, using local processing."
      api_call_successful := false
      api_status := 503
      concurrent_info := none
      real_api_response := none
      fallback_mode := some true
      aws_hybrid_response := some true
      response_time_ms := curTime - startTime
      circuit_breaker_state := cb.state
      error_info := errorInfo
      timestamp := some curTime
      aws_region := awsRegion } }

/-- The success return object (lines 648-660). -/
def successResponse (cb : CircuitBreaker) (awsRegion question : String)
    (status : Nat) (respPayload : String) (startTime curTime : Int) :
    DuixResponse :=
  { session_id := "duix_session_" ++ toString curTime
    data :=
    { text := "DUIX Avatar response to: \"" ++ question ++ "\""
      api_call_successful := status == 200
      api_status := status
      concurrent_info := some respPayload
      real_api_response := some true
      fallback_mode := none
      aws_hybrid_response := none
      response_time_ms := curTime - startTime
      circuit_breaker_state := cb.state
      error_info := none
      timestamp := none
      aws_region := awsRegion } }

/-- The retry loop `for (attempt = 1; attempt <= maxRetries; attempt++)`
(lines 614-703), with `fuel = maxRetries - attempt + 1` remaining
iterations.  The `fuel = 0` case mirrors the post-loop code
(lines 705-706), which is unreachable whenever `maxRetries ≥ 1`. -/
def attemptLoop (cb : CircuitBreaker) (awsRegion question : String)
    (outcome : Nat → UpstreamOutcome) (attemptEnd : Nat → Int)
    (startTime : Int) (maxRetries baseTimeout attempt : Nat) :
    Nat → DuixResponse × CircuitBreaker × List (Nat × Nat)
  | 0 =>
      let cb1 := updateCircuitBreaker cb false (attemptEnd attempt)
      (createFallbackResponse cb1 awsRegion question startTime
        (attemptEnd attempt) none, cb1, [])
  | fuel + 1 =>
      let timeoutMs := baseTimeout + attempt * 2000
      match axiosOutcome (outcome attempt) with
      | AttemptResult.resolved status respPayload =>
          let cb1 := updateCircuitBreaker cb true (attemptEnd attempt)
          (successResponse cb1 awsRegion question status respPayload startTime
            (attemptEnd attempt), cb1, [(attempt, timeoutMs)])
      | AttemptResult.thrown errCode =>
          if attempt == maxRetries then
            let cb1 := updateCircuitBreaker cb false (attemptEnd attempt)
            (createFallbackResponse cb1 awsRegion question startTime
              (attemptEnd attempt)
              (some { error := "DUIX API unavailable"
                      attempts := maxRetries
                      last_error := errCode
                      circuit_breaker_state := cb1.state }),
             cb1, [(attempt, timeoutMs)])
          else
            let rest := attemptLoop cb awsRegion question outcome attemptEnd
              startTime maxRetries baseTimeout (attempt + 1) fuel
            (rest.1, rest.2.1, (attempt, timeoutMs) :: rest.2.2)

/-- `maxRetries = IS_PRODUCTION ? 2 : 3` (line 611). -/
def execMaxRetries (isProduction : Bool) : Nat :=
  if isProduction then 2 else 3

/-- `baseTimeout = IS_PRODUCTION ? 15000 : 20000` (line 612). -/
def execBaseTimeout (isProduction : Bool) : Nat :=
  if isProduction then 15000 else 20000

/-- `callDUIXServiceWithToken` (lines 598-707): breaker check, then the
retry loop with `maxRetries`/`baseTimeout` selected by the production
flag (lines 611-612). -/
def callDUIXServiceWithToken (isProduction : Bool) (awsRegion : String)
    (cb : CircuitBreaker) (question : String)
    (outcome : Nat → UpstreamOutcome) (attemptEnd : Nat → Int) (now : Int) :
    DuixResponse × CircuitBreaker × List (Nat × Nat) :=
  match shouldAttemptDuixCall cb now with
  | (false, cb1) =>
      (createFallbackResponse cb1 awsRegion question now now none, cb1, [])
  | (true, cb1) =>
      attemptLoop cb1 awsRegion question outcome attemptEnd now
        (execMaxRetries isProduction) (execBaseTimeout isProduction) 1
        (execMaxRetries isProduction)

theorem axiosOutcome_thrown_of_fails (o : UpstreamOutcome)
    (h : attemptFails o) : ∃ e, axiosOutcome o = AttemptResult.thrown e := by
  cases o with
  | httpResponse s d =>
      refine ⟨"Request failed with status code " ++ toString s, ?_⟩
      have : ¬ s < 500 := by
        simp only [attemptFails] at h
        omega
      simp [axiosOutcome, validateStatus, this]
  | networkError c => exact ⟨c, rfl⟩

theorem shouldAttempt_preserves_failures (cb : CircuitBreaker) (now : Int) :
    (shouldAttemptDuixCall cb now).2.failures = cb.failures := by
  unfold shouldAttemptDuixCall
  rcases h : cb.state <;> simp only [h]
  split <;> rfl

/-- **C2.** Retry exhaustion: when the breaker allows the call and every
attempt fails at the network level or with status ≥ 500, the executor
issues exactly `maxRetries` attempts, attempt `k` with per-attempt timeout
`baseTimeout + k * 2000` ms (strictly increasing in `k`), records exactly
one failure to the circuit breaker, and returns a fallback response whose
`error_info.attempts` equals `maxRetries`; `maxRetries` is 2 and
`baseTimeout` 15000 under the production flag, 3 and 20000 otherwise. -/
theorem retry_exhaustion (isProduction : Bool) (awsRegion question : String)
    (cb : CircuitBreaker) (outcome : Nat → UpstreamOutcome)
    (attemptEnd : Nat → Int) (now : Int)
    (hattempt : (shouldAttemptDuixCall cb now).1 = true)
    (hfail : ∀ k, attemptFails (outcome k)) :
    (callDUIXServiceWithToken isProduction awsRegion cb question outcome
        attemptEnd now).2.2
      = (List.range (execMaxRetries isProduction)).map
        (fun i => (i + 1, execBaseTimeout isProduction + (i + 1) * 2000)) ∧
    (callDUIXServiceWithToken isProduction awsRegion cb question outcome
        attemptEnd now).2.2.length = execMaxRetries isProduction ∧
    List.Chain' (fun a b : Nat × Nat => a.2 < b.2)
      (callDUIXServiceWithToken isProduction awsRegion cb question outcome
        attemptEnd now).2.2 ∧
    (callDUIXServiceWithToken isProduction awsRegion cb question outcome
        attemptEnd now).2.1.failures = cb.failures + 1 ∧
    (callDUIXServiceWithToken isProduction awsRegion cb question outcome
        attemptEnd now).1.data.fallback_mode = some true ∧
    (∃ ei, (callDUIXServiceWithToken isProduction awsRegion cb question
        outcome attemptEnd now).1.data.error_info = some ei ∧
      ei.attempts = execMaxRetries isProduction ∧
      ei.error = "DUIX API unavailable") := by
  obtain ⟨e1, he1⟩ := axiosOutcome_thrown_of_fails (outcome 1) (hfail 1)
  obtain ⟨e2, he2⟩ := axiosOutcome_thrown_of_fails (outcome 2) (hfail 2)
  obtain ⟨e3, he3⟩ := axiosOutcome_thrown_of_fails (outcome 3) (hfail 3)
  have hfl : (shouldAttemptDuixCall cb now).2.failures = cb.failures :=
    shouldAttempt_preserves_failures cb now
  unfold callDUIXServiceWithToken
  rcases hs : shouldAttemptDuixCall cb now with ⟨b, cb1⟩
  have hb : b = true := by rw [hs] at hattempt; exact hattempt
  subst hb
  have hfl1 : cb1.failures = cb.failures := by rw [hs] at hfl; exact hfl
  cases isProduction <;>
    simp_all [execMaxRetries, execBaseTimeout, attemptLoop, he1, he2, he3,
      updateCircuitBreaker, createFallbackResponse, List.range_succ]

/-- Witness for C2: production flag, fresh breaker, every attempt a
connection reset. -/
theorem retry_exhaustion_witness :
    ((shouldAttemptDuixCall initialBreaker 0).1 = true ∧
      (∀ k : Nat, attemptFails
        ((fun _ => UpstreamOutcome.networkError "ECONNRESET") k))) ∧
    ((callDUIXServiceWithToken true "local" initialBreaker "hi"
        (fun _ => UpstreamOutcome.networkError "ECONNRESET") (fun _ => 0)
        0).2.2
      = (List.range (execMaxRetries true)).map
        (fun i => (i + 1, execBaseTimeout true + (i + 1) * 2000)) ∧
     (callDUIXServiceWithToken true "local" initialBreaker "hi"
        (fun _ => UpstreamOutcome.networkError "ECONNRESET") (fun _ => 0)
        0).2.2.length = execMaxRetries true ∧
     List.Chain' (fun a b : Nat × Nat => a.2 < b.2)
       (callDUIXServiceWithToken true "local" initialBreaker "hi"
        (fun _ => UpstreamOutcome.networkError "ECONNRESET") (fun _ => 0)
        0).2.2 ∧
     (callDUIXServiceWithToken true "local" initialBreaker "hi"
        (fun _ => UpstreamOutcome.networkError "ECONNRESET") (fun _ => 0)
        0).2.1.failures = initialBreaker.failures + 1 ∧
     (callDUIXServiceWithToken true "local" initialBreaker "hi"
        (fun _ => UpstreamOutcome.networkError "ECONNRESET") (fun _ => 0)
        0).1.data.fallback_mode = some true ∧
     (∃ ei, (callDUIXServiceWithToken true "local" initialBreaker "hi"
        (fun _ => UpstreamOutcome.networkError "ECONNRESET") (fun _ => 0)
        0).1.data.error_info = some ei ∧
       ei.attempts = execMaxRetries true ∧
       ei.error = "DUIX API unavailable")) :=
  ⟨⟨by decide, fun _ => by trivial⟩,
   retry_exhaustion true "local" "hi" initialBreaker
     (fun _ => UpstreamOutcome.networkError "ECONNRESET") (fun _ => 0) 0
     (by decide) (fun _ => by trivial)⟩

theorem shouldAttempt_false_unchanged (cb : CircuitBreaker) (now : Int)
    (h : (shouldAttemptDuixCall cb now).1 = false) :
    shouldAttemptDuixCall cb now = (false, cb) := by
  unfold shouldAttemptDuixCall at h ⊢
  rcases hst : cb.state <;> simp only [hst] at h ⊢
  · exact absurd h (by simp)
  · split at h
    · exact absurd h (by simp)
    · split
      · simp_all
      · rfl
  · exact absurd h (by simp)

/-- **C3.** Non-retryable short-circuit: when the breaker allows the call
and the first attempt yields an HTTP status < 500 (e.g. a 404), the
executor issues exactly one attempt, records a success to the circuit
breaker (failure count reset to 0, state CLOSED), and returns the upstream
result (its payload echoed in `concurrent_info`) annotated with the
status, elapsed time and breaker state — not a fallback response. -/
theorem non_retryable_short_circuit (isProduction : Bool)
    (awsRegion question : String) (cb : CircuitBreaker)
    (outcome : Nat → UpstreamOutcome) (attemptEnd : Nat → Int) (now : Int)
    (status : Nat) (payload : String)
    (hattempt : (shouldAttemptDuixCall cb now).1 = true)
    (houtcome : outcome 1 = UpstreamOutcome.httpResponse status payload)
    (hstatus : status < 500) :
    (callDUIXServiceWithToken isProduction awsRegion cb question outcome
        attemptEnd now).2.2
      = [(1, execBaseTimeout isProduction + 2000)] ∧
    (callDUIXServiceWithToken isProduction awsRegion cb question outcome
        attemptEnd now).2.1.failures = 0 ∧
    (callDUIXServiceWithToken isProduction awsRegion cb question outcome
        attemptEnd now).2.1.state = CBState.CLOSED ∧
    (callDUIXServiceWithToken isProduction awsRegion cb question outcome
        attemptEnd now).1.data.api_status = status ∧
    (callDUIXServiceWithToken isProduction awsRegion cb question outcome
        attemptEnd now).1.data.concurrent_info = some payload ∧
    (callDUIXServiceWithToken isProduction awsRegion cb question outcome
        attemptEnd now).1.data.real_api_response = some true ∧
    (callDUIXServiceWithToken isProduction awsRegion cb question outcome
        attemptEnd now).1.data.fallback_mode = none ∧
    (callDUIXServiceWithToken isProduction awsRegion cb question outcome
        attemptEnd now).1.data.response_time_ms = attemptEnd 1 - now ∧
    (callDUIXServiceWithToken isProduction awsRegion cb question outcome
        attemptEnd now).1.data.circuit_breaker_state = CBState.CLOSED := by
  have hres : axiosOutcome (outcome 1)
      = AttemptResult.resolved status payload := by
    simp [houtcome, axiosOutcome, validateStatus, hstatus]
  unfold callDUIXServiceWithToken
  rcases hs : shouldAttemptDuixCall cb now with ⟨b, cb1⟩
  have hb : b = true := by rw [hs] at hattempt; exact hattempt
  subst hb
  cases isProduction <;>
    simp_all [execMaxRetries, execBaseTimeout, attemptLoop, hres,
      updateCircuitBreaker, successResponse]

/-- Witness for C3: a 404 on the first attempt under the production flag. -/
theorem non_retryable_short_circuit_witness :
    ((shouldAttemptDuixCall initialBreaker 0).1 = true ∧
      (fun _ : Nat => UpstreamOutcome.httpResponse 404 "not found") 1
        = UpstreamOutcome.httpResponse 404 "not found" ∧
      404 < 500) ∧
    ((callDUIXServiceWithToken true "local" initialBreaker "q"
        (fun _ => UpstreamOutcome.httpResponse 404 "not found")
        (fun _ => 7) 0).2.2
      = [(1, execBaseTimeout true + 2000)] ∧
     (callDUIXServiceWithToken true "local" initialBreaker "q"
        (fun _ => UpstreamOutcome.httpResponse 404 "not found")
        (fun _ => 7) 0).2.1.failures = 0 ∧
     (callDUIXServiceWithToken true "local" initialBreaker "q"
        (fun _ => UpstreamOutcome.httpResponse 404 "not found")
        (fun _ => 7) 0).2.1.state = CBState.CLOSED ∧
     (callDUIXServiceWithToken true "local" initialBreaker "q"
        (fun _ => UpstreamOutcome.httpResponse 404 "not found")
        (fun _ => 7) 0).1.data.api_status = 404 ∧
     (callDUIXServiceWithToken true "local" initialBreaker "q"
        (fun _ => UpstreamOutcome.httpResponse 404 "not found")
        (fun _ => 7) 0).1.data.concurrent_info = some "not found" ∧
     (callDUIXServiceWithToken true "local" initialBreaker "q"
        (fun _ => UpstreamOutcome.httpResponse 404 "not found")
        (fun _ => 7) 0).1.data.real_api_response = some true ∧
     (callDUIXServiceWithToken true "local" initialBreaker "q"
        (fun _ => UpstreamOutcome.httpResponse 404 "not found")
        (fun _ => 7) 0).1.data.fallback_mode = none ∧
     (callDUIXServiceWithToken true "local" initialBreaker "q"
        (fun _ => UpstreamOutcome.httpResponse 404 "not found")
        (fun _ => 7) 0).1.data.response_time_ms = (fun _ : Nat => (7 : Int)) 1 - 0 ∧
     (callDUIXServiceWithToken true "local" initialBreaker "q"
        (fun _ => UpstreamOutcome.httpResponse 404 "not found")
        (fun _ => 7) 0).1.data.circuit_breaker_state = CBState.CLOSED) :=
  ⟨⟨by decide, rfl, by decide⟩,
   non_retryable_short_circuit true "local" "q" initialBreaker
     (fun _ => UpstreamOutcome.httpResponse 404 "not found") (fun _ => 7) 0
     404 "not found" (by decide) rfl (by decide)⟩

/-- **C4.** Open-breaker fallback: when `shouldAttempt` is false the
executor returns a fallback response immediately with no network attempt
(empty attempt trace, breaker untouched); the fallback carries the
`fallback_mode` marker, the original question echoed in its text, the
elapsed time, a snapshot of the breaker state and a timestamp, in the same
`DuixResponse` shape as a genuine upstream success. -/
theorem open_breaker_fallback (isProduction : Bool)
    (awsRegion question : String) (cb : CircuitBreaker)
    (outcome : Nat → UpstreamOutcome) (attemptEnd : Nat → Int) (now : Int)
    (hclosed : (shouldAttemptDuixCall cb now).1 = false) :
    (callDUIXServiceWithToken isProduction awsRegion cb question outcome
        attemptEnd now).2.2 = [] ∧
    (callDUIXServiceWithToken isProduction awsRegion cb question outcome
        attemptEnd now).2.1 = cb ∧
    (callDUIXServiceWithToken isProduction awsRegion cb question outcome
        attemptEnd now).1
      = createFallbackResponse cb awsRegion question now now none ∧
    (callDUIXServiceWithToken isProduction awsRegion cb question outcome
        attemptEnd now).1.data.fallback_mode = some true ∧
    (callDUIXServiceWithToken isProduction awsRegion cb question outcome
        attemptEnd now).1.data.text
      = "[Hybrid Mode] Processing: \"" ++ question ++
        "\" - DUIX service temporarily unavailable, using local processing." ∧
    (callDUIXServiceWithToken isProduction awsRegion cb question outcome
        attemptEnd now).1.data.response_time_ms = now - now ∧
    (callDUIXServiceWithToken isProduction awsRegion cb question outcome
        attemptEnd now).1.data.circuit_breaker_state = cb.state ∧
    (callDUIXServiceWithToken isProduction awsRegion cb question outcome
        attemptEnd now).1.data.timestamp = some now := by
  have hs : shouldAttemptDuixCall cb now = (false, cb) :=
    shouldAttempt_false_unchanged cb now hclosed
  unfold callDUIXServiceWithToken
  rw [hs]
  simp [createFallbackResponse]

/-- Witness for C4: a breaker opened 5 failures ago, probed before the
recovery timeout has elapsed. -/
theorem open_breaker_fallback_witness :
    ((shouldAttemptDuixCall
        { failures := 5, lastFailureTime := 0, state := CBState.OPEN,
          failureThreshold := 5, recoveryTimeoutMs := 60000 } 1000).1
      = false) ∧
    ((callDUIXServiceWithToken false "local"
        { failures := 5, lastFailureTime := 0, state := CBState.OPEN,
          failureThreshold := 5, recoveryTimeoutMs := 60000 } "hello"
        (fun _ => UpstreamOutcome.httpResponse 200 "ok") (fun _ => 0)
        1000).2.2 = [] ∧
     (callDUIXServiceWithToken false "local"
        { failures := 5, lastFailureTime := 0, state := CBState.OPEN,
          failureThreshold := 5, recoveryTimeoutMs := 60000 } "hello"
        (fun _ => UpstreamOutcome.httpResponse 200 "ok") (fun _ => 0)
        1000).2.1
      = { failures := 5, lastFailureTime := 0, state := CBState.OPEN,
          failureThreshold := 5, recoveryTimeoutMs := 60000 } ∧
     (callDUIXServiceWithToken false "local"
        { failures := 5, lastFailureTime := 0, state := CBState.OPEN,
          failureThreshold := 5, recoveryTimeoutMs := 60000 } "hello"
        (fun _ => UpstreamOutcome.httpResponse 200 "ok") (fun _ => 0)
        1000).1
      = createFallbackResponse
          { failures := 5, lastFailureTime := 0, state := CBState.OPEN,
            failureThreshold := 5, recoveryTimeoutMs := 60000 }
          "local" "hello" 1000 1000 none ∧
     (callDUIXServiceWithToken false "local"
        { failures := 5, lastFailureTime := 0, state := CBState.OPEN,
          failureThreshold := 5, recoveryTimeoutMs := 60000 } "hello"
        (fun _ => UpstreamOutcome.httpResponse 200 "ok") (fun _ => 0)
        1000).1.data.fallback_mode = some true ∧
     (callDUIXServiceWithToken false "local"
        { failures := 5, lastFailureTime := 0, state := CBState.OPEN,
          failureThreshold := 5, recoveryTimeoutMs := 60000 } "hello"
        (fun _ => UpstreamOutcome.httpResponse 200 "ok") (fun _ => 0)
        1000).1.data.text
      = "[Hybrid Mode] Processing: \"" ++ "hello" ++
        "\" - DUIX service temporarily unavailable, using local processing." ∧
     (callDUIXServiceWithToken false "local"
        { failures := 5, lastFailureTime := 0, state := CBState.OPEN,
          failureThreshold := 5, recoveryTimeoutMs := 60000 } "hello"
        (fun _ => UpstreamOutcome.httpResponse 200 "ok") (fun _ => 0)
        1000).1.data.response_time_ms = 1000 - 1000 ∧
     (callDUIXServiceWithToken false "local"
        { failures := 5, lastFailureTime := 0, state := CBState.OPEN,
          failureThreshold := 5, recoveryTimeoutMs := 60000 } "hello"
        (fun _ => UpstreamOutcome.httpResponse 200 "ok") (fun _ => 0)
        1000).1.data.circuit_breaker_state
      = ({ failures := 5, lastFailureTime := 0, state := CBState.OPEN,
           failureThreshold := 5, recoveryTimeoutMs := 60000 }
          : CircuitBreaker).state ∧
     (callDUIXServiceWithToken false "local"
        { failures := 5, lastFailureTime := 0, state := CBState.OPEN,
          failureThreshold := 5, recoveryTimeoutMs := 60000 } "hello"
        (fun _ => UpstreamOutcome.httpResponse 200 "ok") (fun _ => 0)
        1000).1.data.timestamp = some 1000) :=
  ⟨by decide,
   open_breaker_fallback false "local" "hello"
     { failures := 5, lastFailureTime := 0, state := CBState.OPEN,
       failureThreshold := 5, recoveryTimeoutMs := 60000 }
     (fun _ => UpstreamOutcome.httpResponse 200 "ok") (fun _ => 0) 1000
     (by decide)⟩

/-! ## Token signer (part_002 lines 279-298)

`createDUIXToken` reads `Date.now()` once; the instant is passed as
`nowMs` (epoch milliseconds).  The signed JWT is modelled by the claims
payload it embeds together with the algorithm and the key that
authenticates it. -/

/-- The claims payload `{ appId, iat, exp }` (lines 291-295); `iat` and
`exp` are epoch seconds. -/
structure JwtPayload where
  appId : String
  iat : Nat
  exp : Nat
  deriving DecidableEq, Repr

/-- How signing can fail: the distinguished configuration-error outcome of
the spec taxonomy, or a generic error thrown by the signing library. -/
inductive SignFailure where
  | configurationError
  | libraryError (msg : String)
  deriving DecidableEq, Repr

/-- A produced credential: the embedded payload, the signing algorithm and
the symmetric key authenticating it (standing for the HMAC-SHA256 tag). -/
structure SignedJwt where
  payload : JwtPayload
  alg : String
  key : String
  deriving DecidableEq, Repr

/-- Models `jwt.sign(payload, key, { algorithm: 'HS256' })` from the
`jsonwebtoken` dependency (line 297): a falsy (empty) secret is rejected
with the library's generic `secretOrPrivateKey must have a value` error;
otherwise the payload is signed with HS256 keyed by `key`. -/
def jwtSign (payload : JwtPayload) (key : String) :
    Except SignFailure SignedJwt :=
  if key = "" then
    Except.error
      (SignFailure.libraryError "secretOrPrivateKey must have a value")
  else
    Except.ok { payload := payload, alg := "HS256", key := key }

/-- Default token lifetime `TOKEN_EXPIRY` in seconds (line 161) when the
environment variable is unset. -/
def TOKEN_EXPIRY : Nat := 1800

/-- `createDUIXToken(appId, appKey, sigExp)` (lines 279-298). -/
def createDUIXToken (nowMs : Nat) (appId appKey : String) (sigExp : Nat) :
    Except SignFailure SignedJwt :=
  let currentTimeSeconds := nowMs / 1000
  let expirationTimeSeconds := currentTimeSeconds + sigExp
  jwtSign
    { appId := appId, iat := currentTimeSeconds,
      exp := expirationTimeSeconds } appKey

/-- Startup credential validation (lines 173-179): in production a missing
`DUIX_APP_ID` or `DUIX_APP_KEY` environment variable is fatal
(`process.exit(1)`) — the distinguished configuration-error outcome. -/
def validateProductionCredentials (isProduction : Bool)
    (envAppId envAppKey : Option String) : Except SignFailure Unit :=
  if isProduction && (envAppId.isNone || envAppKey.isNone) then
    Except.error SignFailure.configurationError
  else
    Except.ok ()

/-- **C5 (counterexample).** Signing at two different instants, 0 ms and
1 ms (both inside epoch second 0), yields identical tokens — the same
issued-at/expiry pair — refuting "signing at two different instants yields
different issued-at/expiry pairs". -/
theorem token_signer_distinct_instants_counterexample :
    (0 : Nat) ≠ 1 ∧
    createDUIXToken 0 "app" "secret" 1800
      = createDUIXToken 1 "app" "secret" 1800 := by
  exact ⟨by decide, rfl⟩

/-- **C5 (amended).** For every applicationId, non-empty secret and
lifetime, `createDUIXToken` at instant `nowMs` embeds
`issuedAt = ⌊nowMs / 1000⌋` (epoch seconds, not the raw millisecond
clock reading) and `expiry = issuedAt + lifetime`, authenticated with the
secret under HS256; embedded expiry minus embedded issued-at always equals
the requested lifetime, and signing at two instants lying in different
whole seconds yields different issued-at/expiry pairs. -/
theorem token_signer_postcondition (appId secret : String) (sigExp : Nat)
    (nowMs1 nowMs2 : Nat) (hsecret : secret ≠ "")
    (hdiff : nowMs1 / 1000 ≠ nowMs2 / 1000) :
    createDUIXToken nowMs1 appId secret sigExp
      = Except.ok
          { payload :=
            { appId := appId, iat := nowMs1 / 1000,
              exp := nowMs1 / 1000 + sigExp },
            alg := "HS256", key := secret } ∧
    (∀ t, createDUIXToken nowMs1 appId secret sigExp = Except.ok t →
      t.payload.exp - t.payload.iat = sigExp) ∧
    createDUIXToken nowMs1 appId secret sigExp
      ≠ createDUIXToken nowMs2 appId secret sigExp := by
  refine ⟨by simp [createDUIXToken, jwtSign, hsecret], ?_, ?_⟩
  · intro t ht
    simp only [createDUIXToken, jwtSign, if_neg hsecret, Except.ok.injEq] at ht
    subst ht
    simp
  · simp only [createDUIXToken, jwtSign, if_neg hsecret, ne_eq,
      Except.ok.injEq, SignedJwt.mk.injEq, JwtPayload.mk.injEq]
    intro hcontra
    exact hdiff hcontra.1.2.1

/-- Witness for the amended C5 at instants 500 ms and 1500 ms. -/
theorem token_signer_postcondition_witness :
    (("s" : String) ≠ "" ∧ (500 : Nat) / 1000 ≠ 1500 / 1000) ∧
    (createDUIXToken 500 "app" "s" 1800
      = Except.ok
          { payload :=
            { appId := "app", iat := 500 / 1000,
              exp := 500 / 1000 + 1800 },
            alg := "HS256", key := "s" } ∧
    (∀ t, createDUIXToken 500 "app" "s" 1800 = Except.ok t →
      t.payload.exp - t.payload.iat = 1800) ∧
    createDUIXToken 500 "app" "s" 1800
      ≠ createDUIXToken 1500 "app" "s" 1800) :=
  ⟨⟨by decide, by decide⟩,
   token_signer_postcondition "app" "s" 1800 500 1500 (by decide) (by decide)⟩

/-- **C6 (amended).** `createDUIXToken` itself performs no secret
validation: with an empty secret it does not produce a token but fails with
the signing library's generic error, which is not the distinguished
configuration-error outcome; that outcome arises only from the startup
environment validation (fatal in production when the key is absent). -/
theorem token_signer_empty_secret (nowMs : Nat) (appId : String)
    (sigExp : Nat) :
    createDUIXToken nowMs appId "" sigExp
      = Except.error
          (SignFailure.libraryError "secretOrPrivateKey must have a value") ∧
    createDUIXToken nowMs appId "" sigExp
      ≠ Except.error SignFailure.configurationError ∧
    validateProductionCredentials true (some "id") none
      = Except.error SignFailure.configurationError := by
  refine ⟨rfl, ?_, rfl⟩
  simp [createDUIXToken, jwtSign]

/-- **C6 (counterexample).** With an empty secret, `createDUIXToken` fails
with the library's generic error, not the distinguished
configuration-error outcome the claim requires. -/
theorem token_signer_empty_secret_counterexample :
    createDUIXToken 0 "app" "" 1800
      = Except.error
          (SignFailure.libraryError "secretOrPrivateKey must have a value") ∧
    Except.error (α := SignedJwt)
        (SignFailure.libraryError "secretOrPrivateKey must have a value")
      ≠ Except.error (α := SignedJwt) SignFailure.configurationError := by
  exact ⟨rfl, by simp⟩

/-! ## HTTPS agent configuration (part_002 lines 186-269)

`createHTTPSAgent(strategy)` builds the per-call `https.Agent` options
object; the environment reads `IS_PRODUCTION` and
`process.env.DISABLE_SSL_VALIDATION === 'true'` are passed as booleans. -/

/-- The permissive cipher list used for DUIX API calls (lines 214-224). -/
def duixCiphers : List String :=
  ["ECDHE-RSA-AES256-GCM-SHA384", "ECDHE-RSA-AES128-GCM-SHA256",
   "ECDHE-RSA-AES256-SHA384", "ECDHE-RSA-AES128-SHA256",
   "AES256-GCM-SHA384", "AES128-GCM-SHA256", "AES256-SHA256",
   "AES128-SHA256",
   "HIGH:!aNULL:!eNULL:!EXPORT:!DES:!RC4:!MD5:!PSK:!SRP:!CAMELLIA"]

/-- The standard cipher list used for every other call (lines 226-233). -/
def standardCiphers : List String :=
  ["ECDHE-RSA-AES256-GCM-SHA384", "ECDHE-RSA-AES128-GCM-SHA256",
   "ECDHE-RSA-AES256-SHA384", "ECDHE-RSA-AES128-SHA256",
   "AES256-GCM-SHA384", "AES128-GCM-SHA256"]

/-- `shouldValidateSSL` (line 189). -/
def shouldValidateSSL (isProduction disableSslValidationEnv
    isForDuixAPI : Bool) : Bool :=
  if isProduction then !isForDuixAPI
  else !disableSslValidationEnv && !isForDuixAPI

/-- The `checkServerIdentity` callback (lines 235-247), as a function of
whether the underlying `tls.checkServerIdentity` call fails (`some err`)
or passes (`none`); a `none` result accepts the certificate identity. -/
def checkServerIdentity (validateSSL isForDuixAPI : Bool)
    (tlsCheck : Option String) : Option String :=
  if validateSSL then
    match tlsCheck with
    | none => none
    | some err => if isForDuixAPI then none else some err
  else none

/-- The `https.Agent` options produced by `createHTTPSAgent` (the
`baseConfig` object, lines 192-257). -/
structure AgentConfig where
  rejectUnauthorized : Bool
  keepAlive : Bool
  maxSockets : Nat
  maxFreeSockets : Nat
  timeout : Nat
  freeSocketTimeout : Nat
  secureProtocol : String
  minVersion : Option String
  maxVersion : Option String
  ciphers : String
  honorCipherOrder : Bool
  requestCert : Bool
  deriving DecidableEq, Repr

/-- `createHTTPSAgent(strategy)` (lines 187-269). -/
def createHTTPSAgent (isProduction disableSslValidationEnv : Bool)
    (strategy : String) : AgentConfig :=
  let isForDuixAPI := strategy == "duix_api"
  let sv := shouldValidateSSL isProduction disableSslValidationEnv
    isForDuixAPI
  { rejectUnauthorized := sv
    keepAlive := true
    maxSockets := if isProduction then 50 else 10
    maxFreeSockets := if isProduction then 20 else 5
    timeout := if isProduction then 20000 else 30000
    freeSocketTimeout := 30000
    secureProtocol := "TLSv1_2_method"
    minVersion := if isForDuixAPI then none else some "TLSv1.2"
    maxVersion := if isForDuixAPI then none else some "TLSv1.3"
    ciphers := String.intercalate ":"
      (if isForDuixAPI then duixCiphers else standardCiphers)
    honorCipherOrder := true
    requestCert := false }

/-- **C7 (counterexample).** For the `duix_api` purpose the TLS
`minVersion`/`maxVersion` bounds are unset, while other calls pin
TLS 1.2–1.3, and the configured cipher string differs from the one used
for other calls — so neither the protocol-version floor/ceiling nor the
cipher list is "enforced exactly as for other calls". -/
theorem upstream_trust_posture_counterexample :
    (createHTTPSAgent true false "duix_api").minVersion = none ∧
    (createHTTPSAgent true false "production").minVersion
      = some "TLSv1.2" ∧
    (createHTTPSAgent true false "duix_api").maxVersion = none ∧
    (createHTTPSAgent true false "production").maxVersion
      = some "TLSv1.3" ∧
    (createHTTPSAgent true false "duix_api").ciphers
      ≠ (createHTTPSAgent true false "production").ciphers := by
  refine ⟨rfl, rfl, rfl, rfl, by decide⟩

/-- **C7 (amended).** For every agent built for the `duix_api` purpose,
certificate-chain trust is relaxed — `rejectUnauthorized` is false and the
`checkServerIdentity` callback tolerates every identity-check failure —
and `secureProtocol` stays `TLSv1_2_method` exactly as for other calls;
but the explicit `minVersion`/`maxVersion` TLS bounds are left unset
(deferred to the runtime) instead of the TLS 1.2–1.3 pins used elsewhere,
and a more permissive cipher list with legacy additions replaces the
standard one. -/
theorem upstream_trust_posture (isProduction disableSslValidationEnv : Bool)
    (tlsCheck : Option String) :
    (createHTTPSAgent isProduction disableSslValidationEnv
        "duix_api").rejectUnauthorized = false ∧
    checkServerIdentity
        (shouldValidateSSL isProduction disableSslValidationEnv true) true
        tlsCheck = none ∧
    (createHTTPSAgent isProduction disableSslValidationEnv
        "duix_api").secureProtocol
      = (createHTTPSAgent isProduction disableSslValidationEnv
        "production").secureProtocol ∧
    (createHTTPSAgent isProduction disableSslValidationEnv
        "duix_api").minVersion = none ∧
    (createHTTPSAgent isProduction disableSslValidationEnv
        "duix_api").maxVersion = none ∧
    (createHTTPSAgent isProduction disableSslValidationEnv
        "duix_api").ciphers = String.intercalate ":" duixCiphers := by
  refine ⟨?_, ?_, rfl, rfl, rfl, rfl⟩
  · cases isProduction <;> cases disableSslValidationEnv <;> rfl
  · cases isProduction <;> cases disableSslValidationEnv <;>
      rcases tlsCheck with _ | err <;> rfl

/-- **C8 (counterexample).** Under the production flag the socket pool is
strictly larger, not smaller, than under the development flag
(50 vs 10 sockets). -/
theorem pool_sizing_counterexample :
    (createHTTPSAgent true false "production").maxSockets = 50 ∧
    (createHTTPSAgent false false "production").maxSockets = 10 ∧
    ¬ (createHTTPSAgent true false "production").maxSockets
        < (createHTTPSAgent false false "production").maxSockets := by
  refine ⟨rfl, rfl, by decide⟩

/-- **C8 (amended).** Every agent profile enables keep-alive with a
bounded socket pool; under the production flag the timeout is strictly
shorter (20000 vs 30000 ms) but the pool is strictly larger (50 vs 10
sockets, 20 vs 5 free sockets) than under the development flag. -/
theorem pool_sizing_by_flag (disableSslValidationEnv : Bool)
    (strategy : String) :
    (createHTTPSAgent true disableSslValidationEnv strategy).keepAlive
      = true ∧
    (createHTTPSAgent false disableSslValidationEnv strategy).keepAlive
      = true ∧
    (createHTTPSAgent true disableSslValidationEnv strategy).maxSockets
      = 50 ∧
    (createHTTPSAgent false disableSslValidationEnv strategy).maxSockets
      = 10 ∧
    (createHTTPSAgent true disableSslValidationEnv strategy).maxFreeSockets
      = 20 ∧
    (createHTTPSAgent false disableSslValidationEnv strategy).maxFreeSockets
      = 5 ∧
    (createHTTPSAgent true disableSslValidationEnv strategy).timeout
      = 20000 ∧
    (createHTTPSAgent false disableSslValidationEnv strategy).timeout
      = 30000 ∧
    (createHTTPSAgent true disableSslValidationEnv strategy).timeout
      < (createHTTPSAgent false disableSslValidationEnv strategy).timeout ∧
    (createHTTPSAgent false disableSslValidationEnv strategy).maxSockets
      < (createHTTPSAgent true disableSslValidationEnv strategy).maxSockets := by
  refine ⟨rfl, rfl, rfl, rfl, rfl, rfl, rfl, rfl, ?_, ?_⟩
  · show (20000 : Nat) < 30000
    decide
  · show (10 : Nat) < 50
    decide

/-! ## Latency measurement endpoint (part_002 lines 483-561)

JavaScript numbers reaching this handler are epoch-millisecond integers,
modelled as `Int`; a value is represented by its `ToNumber` coercion
class, so `NaN` propagation through `-` is explicit.  Strings carry their
`Number()` coercion in the constructor (`numericString 5` stands for
`"5"`, `nonNumericString "abc"` for a string that coerces to `NaN`). -/

/-- A JavaScript value as it can appear for `clientSendTime` in the parsed
JSON body, classified by its `ToNumber` coercion. -/
inductive JSVal where
  | num (v : Int)
  | nan
  | null
  | undef
  | numericString (v : Int)
  | nonNumericString (s : String)
  | plainObject
  deriving DecidableEq, Repr

/-- `ToNumber`: `none` stands for `NaN`. -/
def toNumber : JSVal → Option Int
  | JSVal.num v => some v
  | JSVal.nan => none
  | JSVal.null => some 0
  | JSVal.undef => none
  | JSVal.numericString v => some v
  | JSVal.nonNumericString _ => none
  | JSVal.plainObject => none

/-- JavaScript `-` on two values: coerce both; any `NaN` is contagious. -/
def jsSub (a b : JSVal) : JSVal :=
  match toNumber a, toNumber b with
  | some x, some y => JSVal.num (x - y)
  | _, _ => JSVal.nan

/-- JavaScript `+` restricted to number-like operands (as used when adding
the two latency components); any `NaN` is contagious. -/
def jsAdd (a b : JSVal) : JSVal :=
  match toNumber a, toNumber b with
  | some x, some y => JSVal.num (x + y)
  | _, _ => JSVal.nan

/-- Request body of `POST /api/measure-latency`; an absent key is `none`. -/
structure MeasureLatencyBody where
  clientSendTime : Option JSVal
  measurementType : Option JSVal
  sessionId : Option JSVal
  userAgent : Option JSVal
  deriving DecidableEq, Repr

/-- Reading a destructured key: an absent key yields `undefined`. -/
def bodyGet : Option JSVal → JSVal
  | some v => v
  | none => JSVal.undef

/-- The `measurements` object of the reply (lines 509-516). -/
structure LatencyMeasurements where
  clientSendTime : JSVal
  serverReceiveTime : Int
  serverProcessTime : Int
  networkLatency : JSVal
  serverProcessingTime : JSVal
  totalRoundTrip : JSVal
  deriving DecidableEq, Repr

/-- The JSON reply of the handler with its HTTP status (`res.json` sends
status 200). -/
structure LatencyReply where
  status : Nat
  success : Bool
  measurements : LatencyMeasurements
  deriving DecidableEq, Repr

/-- The `POST /api/measure-latency` handler (lines 483-546).  The two
server clock readings are passed in; the body is never validated or
branched on, so the computation is total and the `catch` branch
(lines 548-560) is unreachable for it. -/
def measureLatencyHandler (serverReceiveTime serverProcessTime : Int)
    (body : MeasureLatencyBody) : LatencyReply :=
  let clientSendTime := bodyGet body.clientSendTime
  let networkLatency := jsSub (JSVal.num serverReceiveTime) clientSendTime
  let serverProcessingTime :=
    jsSub (JSVal.num serverProcessTime) (JSVal.num serverReceiveTime)
  { status := 200
    success := true
    measurements :=
    { clientSendTime := clientSendTime
      serverReceiveTime := serverReceiveTime
      serverProcessTime := serverProcessTime
      networkLatency := networkLatency
      serverProcessingTime := serverProcessingTime
      totalRoundTrip :=
        jsSub (JSVal.num serverProcessTime) clientSendTime } }

/-- **C9.** Latency measurement identity: for a numeric `clientSendTime`,
the returned measurements satisfy
`networkLatency + serverProcessingTime = totalRoundTrip` exactly, with
`networkLatency = serverReceiveTime - clientSendTime`,
`serverProcessingTime = serverProcessTime - serverReceiveTime` and
`totalRoundTrip = serverProcessTime - clientSendTime`. -/
theorem latency_measurement_identity (serverReceiveTime serverProcessTime
    T : Int) (body : MeasureLatencyBody)
    (hT : body.clientSendTime = some (JSVal.num T)) :
    (measureLatencyHandler serverReceiveTime serverProcessTime
        body).measurements.networkLatency
      = JSVal.num (serverReceiveTime - T) ∧
    (measureLatencyHandler serverReceiveTime serverProcessTime
        body).measurements.serverProcessingTime
      = JSVal.num (serverProcessTime - serverReceiveTime) ∧
    (measureLatencyHandler serverReceiveTime serverProcessTime
        body).measurements.totalRoundTrip
      = JSVal.num (serverProcessTime - T) ∧
    jsAdd (measureLatencyHandler serverReceiveTime serverProcessTime
        body).measurements.networkLatency
      (measureLatencyHandler serverReceiveTime serverProcessTime
        body).measurements.serverProcessingTime
      = (measureLatencyHandler serverReceiveTime serverProcessTime
        body).measurements.totalRoundTrip := by
  refine ⟨?_, ?_, ?_, ?_⟩ <;>
    simp [measureLatencyHandler, bodyGet, hT, jsSub, jsAdd, toNumber]

/-- A concrete body whose `clientSendTime` is the number 30. -/
def numericBody : MeasureLatencyBody :=
  { clientSendTime := some (JSVal.num 30)
    measurementType := none
    sessionId := none
    userAgent := none }

/-- Witness for C9: `clientSendTime = 30`, server receive at 100 and
process completion at 150. -/
theorem latency_measurement_identity_witness :
    numericBody.clientSendTime = some (JSVal.num 30) ∧
    ((measureLatencyHandler 100 150 numericBody).measurements.networkLatency
      = JSVal.num (100 - 30) ∧
     (measureLatencyHandler 100 150
        numericBody).measurements.serverProcessingTime
      = JSVal.num (150 - 100) ∧
     (measureLatencyHandler 100 150 numericBody).measurements.totalRoundTrip
      = JSVal.num (150 - 30) ∧
     jsAdd (measureLatencyHandler 100 150
         numericBody).measurements.networkLatency
       (measureLatencyHandler 100 150
         numericBody).measurements.serverProcessingTime
      = (measureLatencyHandler 100 150
         numericBody).measurements.totalRoundTrip) :=
  ⟨rfl, latency_measurement_identity 100 150 30 numericBody rfl⟩

/-- **C10.** The handler performs no validation of `clientSendTime`: for
every body in which it is absent or coerces to `NaN`, the reply is still
HTTP 200 with `success: true`, with `networkLatency` and `totalRoundTrip`
equal to `NaN`; and no body whatsoever produces a 400 — the handler's
status is 200 on every input. -/
theorem latency_no_validation (serverReceiveTime serverProcessTime : Int)
    (body : MeasureLatencyBody)
    (hbad : body.clientSendTime = none ∨
      toNumber (bodyGet body.clientSendTime) = none) :
    (measureLatencyHandler serverReceiveTime serverProcessTime body).status
      = 200 ∧
    (measureLatencyHandler serverReceiveTime serverProcessTime body).success
      = true ∧
    (measureLatencyHandler serverReceiveTime serverProcessTime
        body).measurements.networkLatency = JSVal.nan ∧
    (measureLatencyHandler serverReceiveTime serverProcessTime
        body).measurements.totalRoundTrip = JSVal.nan ∧
    (∀ b : MeasureLatencyBody,
      (measureLatencyHandler serverReceiveTime serverProcessTime b).status
        ≠ 400) := by
  have hnan : toNumber (bodyGet body.clientSendTime) = none := by
    rcases hbad with h | h
    · rw [h]; rfl
    · exact h
  refine ⟨rfl, rfl, ?_, ?_, fun b => by simp [measureLatencyHandler]⟩ <;>
    simp [measureLatencyHandler, jsSub, hnan]

/-- A concrete body whose `clientSendTime` is the string `"abc"`. -/
def nonNumericBody : MeasureLatencyBody :=
  { clientSendTime := some (JSVal.nonNumericString "abc")
    measurementType := none
    sessionId := none
    userAgent := none }

/-- Witness for C10: `clientSendTime` is the string `"abc"` (coercing to
`NaN`), server clocks at 5 and 9. -/
theorem latency_no_validation_witness :
    (nonNumericBody.clientSendTime = none ∨
      toNumber (bodyGet nonNumericBody.clientSendTime) = none) ∧
    ((measureLatencyHandler 5 9 nonNumericBody).status = 200 ∧
     (measureLatencyHandler 5 9 nonNumericBody).success = true ∧
     (measureLatencyHandler 5 9 nonNumericBody).measurements.networkLatency
       = JSVal.nan ∧
     (measureLatencyHandler 5 9 nonNumericBody).measurements.totalRoundTrip
       = JSVal.nan ∧
     (∀ b : MeasureLatencyBody,
       (measureLatencyHandler 5 9 b).status ≠ 400)) :=
  ⟨Or.inr rfl, latency_no_validation 5 9 nonNumericBody (Or.inr rfl)⟩

end Gateway
